import Mathlib

/-!
Verification of the observer/guardian core: device abstraction, token
identity check (`UsbKey.initDevice`), authentication gate
(`SecurityManager`), command dispatch (`CommandHandler`) and the control
loop of `guardian.rs`, shallowly embedded in Lean.

Bytes are `Nat` values below 256; machine words of the digest are `Nat`
values reduced modulo `2 ^ 32` at every arithmetic step, mirroring the
wrapping 32-bit arithmetic of SHA-256.
-/

namespace Guardian

/-! ## SHA-256 (the `sha2` crate's `Sha256`, used by `SecurityManager.hash_data`) -/

/-- `2 ^ 32`, the modulus of 32-bit word arithmetic. -/
def w32 : Nat := 4294967296

/-- Right rotation of a 32-bit word. -/
def rotr32 (n x : Nat) : Nat := ((x >>> n) ||| (x <<< (32 - n))) % w32

/-- SHA-256 small sigma 0. -/
def ssig0 (x : Nat) : Nat := (rotr32 7 x) ^^^ (rotr32 18 x) ^^^ (x >>> 3)

/-- SHA-256 small sigma 1. -/
def ssig1 (x : Nat) : Nat := (rotr32 17 x) ^^^ (rotr32 19 x) ^^^ (x >>> 10)

/-- SHA-256 big sigma 0. -/
def bsig0 (x : Nat) : Nat := (rotr32 2 x) ^^^ (rotr32 13 x) ^^^ (rotr32 22 x)

/-- SHA-256 big sigma 1. -/
def bsig1 (x : Nat) : Nat := (rotr32 6 x) ^^^ (rotr32 11 x) ^^^ (rotr32 25 x)

/-- SHA-256 choice function. -/
def chf (x y z : Nat) : Nat := (x &&& y) ^^^ ((x ^^^ 4294967295) &&& z)

/-- SHA-256 majority function. -/
def majf (x y z : Nat) : Nat := (x &&& y) ^^^ (x &&& z) ^^^ (y &&& z)

/-- The 64 SHA-256 round constants, written in decimal. -/
def sha256K : List Nat :=
  [1116352408, 1899447441, 3049323471, 3921009573, 961987163,
   1508970993, 2453635748, 2870763221, 3624381080, 310598401,
   607225278, 1426881987, 1925078388, 2162078206, 2614888103,
   3248222580, 3835390401, 4022224774, 264347078, 604807628,
   770255983, 1249150122, 1555081692, 1996064986, 2554220882,
   2821834349, 2952996808, 3210313671, 3336571891, 3584528711,
   113926993, 338241895, 666307205, 773529912, 1294757372,
   1396182291, 1695183700, 1986661051, 2177026350, 2456956037,
   2730485921, 2820302411, 3259730800, 3345764771, 3516065817,
   3600352804, 4094571909, 275423344, 430227734, 506948616,
   659060556, 883997877, 958139571, 1322822218, 1537002063,
   1747873779, 1955562222, 2024104815, 2227730452, 2361852424,
   2428436474, 2756734187, 3204031479, 3329325298]

/-- The SHA-256 initial hash state, written in decimal. -/
def sha256H0 : List Nat :=
  [1779033703, 3144134277, 1013904242, 2773480762,
   1359893119, 2600822924, 528734635, 1541459225]

/-- Extend the 16 words of a block by `n` further schedule words. -/
def sha256Extend : Nat → List Nat → List Nat
  | 0, ws => ws
  | n + 1, ws =>
    let i := ws.length
    let wNew := (ws.getD (i - 16) 0 + ssig0 (ws.getD (i - 15) 0) +
                 ws.getD (i - 7) 0 + ssig1 (ws.getD (i - 2) 0)) % w32
    sha256Extend n (ws ++ [wNew])

/-- One SHA-256 compression round over the 8-word running state. -/
def sha256Round (st : List Nat) (kw : Nat × Nat) : List Nat :=
  match st with
  | [a, b, c, d, e, f, g, h] =>
    let t1 := (h + bsig1 e + chf e f g + kw.1 + kw.2) % w32
    let t2 := (bsig0 a + majf a b c) % w32
    [(t1 + t2) % w32, a, b, c, (d + t1) % w32, e, f, g]
  | other => other

/-- Compress one 16-word message block into the running 8-word state. -/
def sha256Compress (h : List Nat) (block : List Nat) : List Nat :=
  let ws := sha256Extend 48 block
  let st := (sha256K.zip ws).foldl sha256Round h
  (h.zip st).map (fun p => (p.1 + p.2) % w32)

/-- Group a byte list into big-endian 32-bit words, four bytes at a time. -/
def bytesToWords : List Nat → List Nat
  | b0 :: b1 :: b2 :: b3 :: rest =>
    (b0 * 16777216 + b1 * 65536 + b2 * 256 + b3) :: bytesToWords rest
  | _ => []

/-- The 8-byte big-endian encoding of the message bit length. -/
def lenBytes (bitLen : Nat) : List Nat :=
  [(bitLen >>> 56) % 256, (bitLen >>> 48) % 256, (bitLen >>> 40) % 256,
   (bitLen >>> 32) % 256, (bitLen >>> 24) % 256, (bitLen >>> 16) % 256,
   (bitLen >>> 8) % 256, bitLen % 256]

/-- SHA-256 padding: `0x80`, zeros to 56 mod 64, then the 64-bit bit length. -/
def sha256Pad (msg : List Nat) : List Nat :=
  let zeros := (120 - (msg.length + 1) % 64) % 64
  msg ++ [128] ++ List.replicate zeros 0 ++ lenBytes (msg.length * 8)

/-- Split a list into chunks of 64 elements (fuel-driven, fuel is the length). -/
def chunksAux : Nat → List Nat → List (List Nat)
  | 0, _ => []
  | _, [] => []
  | n + 1, l => l.take 64 :: chunksAux n (l.drop 64)

/-- Split a byte list into 64-byte blocks. -/
def chunks64 (l : List Nat) : List (List Nat) := chunksAux l.length l

/-- The SHA-256 digest of a byte list, as eight 32-bit words. -/
def sha256Words (msg : List Nat) : List Nat :=
  ((chunks64 (sha256Pad msg)).map bytesToWords).foldl sha256Compress sha256H0

/-- The lowercase hex character of a value below 16. -/
def hexDigit (n : Nat) : Char :=
  if n < 10 then Char.ofNat (48 + n) else Char.ofNat (87 + n)

/-- The `k` lowercase hex digits of `v`, most significant first. -/
def toHexDigits : Nat → Nat → List Char
  | 0, _ => []
  | k + 1, v => toHexDigits k (v / 16) ++ [hexDigit (v % 16)]

/-- Lowercase hex encoding of a SHA-256 digest, as Rust's
`format` with `:x` prints it: 64 hex characters, big-endian per word. -/
def sha256hex (msg : List Nat) : String :=
  String.mk ((sha256Words msg).foldl (fun acc wd => acc ++ toHexDigits 8 wd) [])

/-! ## Device abstraction (`connector/device_operator.rs`)

A `Device` trait object is embedded as a record of the responses its
operations produce; all operations return `anyhow::Result`, embedded as
`Except String`.  Which operations a piece of code invokes, and in which
order, is recorded in an explicit trace of `DevOp` events — the frame
observations the claims are about. -/

/-- `DeviceType` of `device_operator.rs` (`USB` is the token class). -/
inductive DeviceType
  | USB
  | Disk
  | Other
deriving DecidableEq, Repr

/-- `DeviceInfo` descriptor of `device_operator.rs`. -/
structure DeviceInfo where
  name : String
  id : String
  device_type : DeviceType
deriving DecidableEq, Repr

/-- A device operation, as recorded in a trace. -/
inductive DevOp
  | connect
  | disconnect
  | read (size : Nat)
  | write (data : List Nat)
  | getInfo
  | waitForCommand
deriving DecidableEq, Repr

/-- Behaviour of a `dyn Device`: the response of each trait operation.
`readR` is the byte vector (values below 256) `read(size)` yields. -/
structure Device where
  connectR : Except String Unit
  disconnectR : Except String Unit
  readR : Nat → Except String (List Nat)
  writeR : List Nat → Except String Unit
  getInfoR : Except String DeviceInfo
  waitForCommandR : Except String String

/-! ## `UsbKey` (`connector/usb_key.rs`) -/

/-- `UsbKey`: a `Device` plus the configured expected key identifier. -/
structure UsbKey where
  device : Device
  key_id : String

/-- `UsbKey::initialize`: connect, fetch the descriptor, fail
`"Not a USB device"` when the type is not `USB`, fail
`"Unexpected USB key"` when the id differs from `key_id`, else succeed.
Returns the result paired with the trace of device operations invoked. -/
def UsbKey.initDevice (k : UsbKey) : Except String Unit × List DevOp :=
  match k.device.connectR with
  | .error e => (.error e, [DevOp.connect])
  | .ok _ =>
    match k.device.getInfoR with
    | .error e => (.error e, [DevOp.connect, DevOp.getInfo])
    | .ok info =>
      if info.device_type ≠ DeviceType.USB then
        (.error "Not a USB device", [DevOp.connect, DevOp.getInfo])
      else if info.id ≠ k.key_id then
        (.error "Unexpected USB key", [DevOp.connect, DevOp.getInfo])
      else
        (.ok (), [DevOp.connect, DevOp.getInfo])

/-- `UsbKey::read_data`: delegate to the device's `read`. -/
def UsbKey.read_data (k : UsbKey) (size : Nat) :
    Except String (List Nat) × List DevOp :=
  (k.device.readR size, [DevOp.read size])

/-- `UsbKey::write_data`: delegate to the device's `write`. -/
def UsbKey.write_data (k : UsbKey) (data : List Nat) :
    Except String Unit × List DevOp :=
  (k.device.writeR data, [DevOp.write data])

/-- `UsbKey::wait_for_command`: delegate to the device. -/
def UsbKey.wait_for_command (k : UsbKey) :
    Except String String × List DevOp :=
  (k.device.waitForCommandR, [DevOp.waitForCommand])

/-! ## `SecurityManager` (`connector/security.rs`) -/

/-- `SecurityManager`: the configured expected digest (hex string). -/
structure SecurityManager where
  expected_key_hash : String

/-- `SecurityManager::hash_data`: SHA-256 of the data, printed as
lowercase hex (Rust's `format` with `:x` on the digest). -/
def SecurityManager.hash_data (_m : SecurityManager) (data : List Nat) : String :=
  sha256hex data

/-- `SecurityManager::verify_key`: read up to 1024 bytes from the token,
hash them, compare with the configured expected digest. -/
def SecurityManager.verify_key (m : SecurityManager) (k : UsbKey) :
    Except String Bool × List DevOp :=
  match k.read_data 1024 with
  | (.error e, tr) => (.error e, tr)
  | (.ok key_data, tr) => (.ok (m.hash_data key_data == m.expected_key_hash), tr)

/-- `SecurityManager::authenticate_key`: succeed exactly when
`verify_key` returns `true`; otherwise fail closed. -/
def SecurityManager.authenticate_key (m : SecurityManager) (k : UsbKey) :
    Except String Unit × List DevOp :=
  match m.verify_key k with
  | (.error e, tr) => (.error e, tr)
  | (.ok true, tr) => (.ok (), tr)
  | (.ok false, tr) => (.error "Key authentication failed", tr)

/-! ## `CommandHandler` (`handler.rs`)

`cfg!(target_os = "windows")` is compile-time; it is embedded as an
explicit `isWindows : Bool` parameter so both compilations are covered.
Spawning an external process is the environment's business: a `World`
maps a program and argument list to the outcome of running it
(`Except`, since `Command::output()` itself can fail), and every spawn
attempt is recorded in a trace of `SpawnCall`s. -/

/-- Captured outcome of a completed external process. -/
structure ProcOutput where
  success : Bool
  stdout : String
  stderr : String
deriving DecidableEq, Repr

/-- One process-spawn attempt: program and arguments. -/
structure SpawnCall where
  program : String
  args : List String
deriving DecidableEq, Repr

/-- The environment's response to spawning a process. -/
structure World where
  spawn : String → List String → Except String ProcOutput

/-- `CommandHandler`: the configured script directory. -/
structure CommandHandler where
  script_directory : String

/-- Await a spawned process (`command.output().await?`): a failure of
the spawn itself propagates; a completed run is classified by the
continuation.  Either way the attempt is recorded in the trace. -/
def spawnOutcome (w : World) (prog : String) (args : List String)
    (onOutput : ProcOutput → Except String String) :
    Except String String × List SpawnCall :=
  match w.spawn prog args with
  | .error e => (.error e, [⟨prog, args⟩])
  | .ok output => (onOutput output, [⟨prog, args⟩])

/-- `CommandHandler::run_script`: resolve
`{dir}\{name}.bat` with shell `cmd /C` on Windows, `{dir}/{name}.sh`
with shell `bash -c` otherwise; spawn, and on exit status zero return
captured stdout, else fail with a message carrying captured stderr. -/
def CommandHandler.run_script (h : CommandHandler) (isWindows : Bool)
    (w : World) (script_name : String) :
    Except String String × List SpawnCall :=
  let pathShell :=
    if isWindows then (h.script_directory ++ "\\" ++ script_name ++ ".bat", "cmd")
    else (h.script_directory ++ "/" ++ script_name ++ ".sh", "bash")
  let script_path := pathShell.1
  let shell_command := pathShell.2
  let args := if isWindows then ["/C", script_path] else ["-c", script_path]
  spawnOutcome w shell_command args (fun output =>
    if output.success then .ok output.stdout
    else .error ("Script execution failed: " ++ script_name ++ "\nError: " ++
                 output.stderr))

/-- `CommandHandler::check_status`: run `tasklist` on Windows, `ps aux`
otherwise; return captured stdout on exit status zero. -/
def CommandHandler.check_status (_h : CommandHandler) (isWindows : Bool)
    (w : World) : Except String String × List SpawnCall :=
  let prog := if isWindows then "tasklist" else "ps"
  let args := if isWindows then [] else ["aux"]
  spawnOutcome w prog args (fun output =>
    if output.success then .ok output.stdout
    else .error ("Status check failed: " ++ output.stderr))

/-- `CommandHandler::handle_command`: the Rust `match` over the six
recognized command strings (an equality chain in this embedding), with
the catch-all arm failing `Unknown command` and spawning nothing. -/
def CommandHandler.handle_command (h : CommandHandler) (isWindows : Bool)
    (w : World) (command : String) :
    Except String String × List SpawnCall :=
  if command = "ALLOW_NETWORK" then h.run_script isWindows w "an"
  else if command = "BLOCK_NETWORK" then h.run_script isWindows w "bn"
  else if command = "LOCK_SCREEN" then h.run_script isWindows w "sl"
  else if command = "LOCK_USB" then h.run_script isWindows w "lu"
  else if command = "UNLOCK_USB" then h.run_script isWindows w "uu"
  else if command = "CHECK_STATUS" then h.check_status isWindows w
  else (.error ("Unknown command: " ++ command), [])

/-- The recognized command vocabulary, in source order. -/
def recognizedCommands : List String :=
  ["ALLOW_NETWORK", "BLOCK_NETWORK", "LOCK_SCREEN", "LOCK_USB",
   "UNLOCK_USB", "CHECK_STATUS"]

/-- The five script commands and their two-letter script codes. -/
def scriptTable : List (String × String) :=
  [("ALLOW_NETWORK", "an"), ("BLOCK_NETWORK", "bn"), ("LOCK_SCREEN", "sl"),
   ("LOCK_USB", "lu"), ("UNLOCK_USB", "uu")]

/-- The shell `run_script` invokes on each platform. -/
def scriptShell (isWindows : Bool) : String := if isWindows then "cmd" else "bash"

/-- The script path `run_script` resolves on each platform. -/
def scriptPath (isWindows : Bool) (dir code : String) : String :=
  if isWindows then dir ++ "\\" ++ code ++ ".bat" else dir ++ "/" ++ code ++ ".sh"

/-- The argument list `run_script` passes to the shell on each platform. -/
def scriptArgs (isWindows : Bool) (dir code : String) : List String :=
  if isWindows then ["/C", scriptPath isWindows dir code]
  else ["-c", scriptPath isWindows dir code]

/-! ## The control loop (`bin/guardian.rs` `main`)

The loop is embedded as a state machine.  Each await on the environment
(device discovery, in-session command wait) consumes one `LoopEvent`;
the internal transitions (initialize, authenticate, disconnect) are
driven by the device behaviour already stored in the `UsbKey`.  The
observable calls of the loop are recorded as `LoopAction`s.  The
dispatch outcome of `handle_command` is only printed by `main` and does
not affect control flow, so the skeleton records the dispatched command
rather than its result.

`main` classifies a discovered device by down-casting it to `UsbKey`
(`as_any_mut().downcast_mut::<UsbKey>()`), not by its descriptor: a
discovery yields either a `UsbKey` (with its behaviour) or some other
`Device`, which the loop ignores.  `wait_for_device` errors are
propagated out of `main` by the `?` operator, which terminates the
process — embedded as the absorbing `terminated` state. -/

/-- Outcome of one `wait_for_device` call, after the down-cast. -/
inductive DiscoveryResult
  | found (k : UsbKey)
  | foundOther
  | failed (e : String)

/-- One environment event consumed by the loop. -/
inductive LoopEvent
  | discovery (r : DiscoveryResult)
  | command (r : Except String String)

/-- Control-loop state, between awaits. -/
inductive LoopState
  | waitingForDevice
  | initializing (k : UsbKey)
  | authenticating (k : UsbKey)
  | commandLoop (k : UsbKey)
  | disconnecting (k : UsbKey)
  | terminated (e : String)

/-- An observable call made by the loop. -/
inductive LoopAction
  | calledInitialize (k : UsbKey)
  | calledAuthenticate (k : UsbKey)
  | dispatched (k : UsbKey) (command : String)
  | calledDisconnect (k : UsbKey)

/-- One transition of `main`'s loop: next state and emitted actions. -/
def guardianStep (sec : SecurityManager) (s : LoopState) (ev : LoopEvent) :
    LoopState × List LoopAction :=
  match s, ev with
  | .waitingForDevice, .discovery (.failed e) => (.terminated e, [])
  | .waitingForDevice, .discovery .foundOther => (.waitingForDevice, [])
  | .waitingForDevice, .discovery (.found k) => (.initializing k, [])
  | .initializing k, _ =>
    match (UsbKey.initDevice k).1 with
    | .error _ => (.waitingForDevice, [.calledInitialize k])
    | .ok _ => (.authenticating k, [.calledInitialize k])
  | .authenticating k, _ =>
    match (sec.authenticate_key k).1 with
    | .error _ => (.waitingForDevice, [.calledAuthenticate k])
    | .ok _ => (.commandLoop k, [.calledAuthenticate k])
  | .commandLoop k, .command (.ok cmd) => (.commandLoop k, [.dispatched k cmd])
  | .commandLoop k, .command (.error _) => (.disconnecting k, [])
  | .disconnecting k, _ => (.waitingForDevice, [.calledDisconnect k])
  | .terminated e, _ => (.terminated e, [])
  | s, _ => (s, [])

/-- Run the loop over a list of events, accumulating the action trace. -/
def guardianRun (sec : SecurityManager) :
    LoopState → List LoopEvent → LoopState × List LoopAction
  | s, [] => (s, [])
  | s, ev :: rest =>
    let step := guardianStep sec s ev
    let rest' := guardianRun sec step.1 rest
    (rest'.1, step.2 ++ rest'.2)

/-! ### Configuration constants of `guardian.rs` -/

/-- `EXPECTED_KEY_HASH` of `guardian.rs`. -/
def EXPECTED_KEY_HASH : String := "your_expected_key_hash_here"

/-- `RESPONSE_DIR` of `guardian.rs`. -/
def RESPONSE_DIR : String := "./response"

/-- `OS_SPECIFIC_DIR` of `guardian.rs`, per platform. -/
def OS_SPECIFIC_DIR (isWindows : Bool) : String :=
  if isWindows then "win" else "nix"

/-- The script directory `main` hands to `CommandHandler`:
`Path::new(RESPONSE_DIR).join(OS_SPECIFIC_DIR)`, rendered with the
platform's path separator. -/
def guardianScriptDir (isWindows : Bool) : String :=
  if isWindows then RESPONSE_DIR ++ "\\" ++ OS_SPECIFIC_DIR true
  else RESPONSE_DIR ++ "/" ++ OS_SPECIFIC_DIR false

/-! ### Concrete fixtures

Concrete devices and configurations used to instantiate the theorems,
mirroring the mock devices of `guardian.rs`'s test module. -/

/-- The bytes of `"test_key_data"`, the mock token content. -/
def testKeyBytes : List Nat :=
  [116, 101, 115, 116, 95, 107, 101, 121, 95, 100, 97, 116, 97]

/-- Lowercase hex SHA-256 of `"test_key_data"`. -/
def testKeyHash : String :=
  "f14880ac3b2546c8b5fff768a0444dd30a40f8bf6679e366cb0867b3ede56519"

/-- Descriptor of the well-behaved mock token. -/
def infoGood : DeviceInfo :=
  ⟨"MockDevice", "test_key_id", DeviceType.USB⟩

/-- A well-behaved mock device: USB descriptor with the expected id,
reads yield `testKeyBytes`. -/
def deviceGood : Device where
  connectR := .ok ()
  disconnectR := .ok ()
  readR := fun _ => .ok testKeyBytes
  writeR := fun _ => .ok ()
  getInfoR := .ok infoGood
  waitForCommandR := .ok "ALLOW_NETWORK"

/-- The well-behaved token, configured for id `"test_key_id"`. -/
def goodKey : UsbKey := ⟨deviceGood, "test_key_id"⟩

/-- Descriptor with a wrong id but the right device type. -/
def infoWrongId : DeviceInfo :=
  ⟨"MockDevice", "wrong_id", DeviceType.USB⟩

/-- A token whose descriptor id differs from the configured key id. -/
def wrongIdKey : UsbKey :=
  ⟨{ deviceGood with getInfoR := .ok infoWrongId }, "test_key_id"⟩

/-- Descriptor of a non-token device (a disk) with a mismatching id. -/
def infoDisk : DeviceInfo :=
  ⟨"SomeDisk", "wrong_id", DeviceType.Disk⟩

/-- A `UsbKey` wrapper around a device whose descriptor is not a token. -/
def diskKey : UsbKey :=
  ⟨{ deviceGood with getInfoR := .ok infoDisk }, "test_key_id"⟩

/-- A token whose underlying device fails to connect. -/
def badConnectKey : UsbKey :=
  ⟨{ deviceGood with connectR := .error "io error" }, "test_key_id"⟩

/-- A gate configured with the digest of `testKeyBytes`. -/
def secGood : SecurityManager := ⟨testKeyHash⟩

/-- The dispatcher `main` builds on a Unix-like platform. -/
def handlerNix : CommandHandler := ⟨guardianScriptDir false⟩

/-- An environment where every spawned process succeeds printing `"locked"`. -/
def worldOk : World := ⟨fun _ _ => .ok ⟨true, "locked", ""⟩⟩

/-- An environment where every spawned process exits nonzero with
standard error `"perm denied"`. -/
def worldFail : World := ⟨fun _ _ => .ok ⟨false, "", "perm denied"⟩⟩

/-- An event list driving one full good session: discovery of the good
token, its initialization and authentication steps, then one command. -/
def goodEvents : List LoopEvent :=
  [.discovery (.found goodKey), .discovery .foundOther,
   .discovery .foundOther, .command (.ok "CHECK_STATUS")]

/-! ### Invariants of the control loop -/

/-- The token passed `initialize`. -/
def initOk (k : UsbKey) : Prop := (UsbKey.initDevice k).1 = .ok ()

/-- The token passed `authenticate_key` against `sec`. -/
def authOk (sec : SecurityManager) (k : UsbKey) : Prop :=
  (sec.authenticate_key k).1 = .ok ()

/-- Loop invariant: authentication states are only reached by tokens
that passed the earlier gates. -/
def stateInv (sec : SecurityManager) : LoopState → Prop
  | .authenticating k => initOk k
  | .commandLoop k => initOk k ∧ authOk sec k
  | _ => True

/-- Soundness of an emitted action: authentication is only attempted
after a successful `initialize`, dispatch only after both gates. -/
def actionOk (sec : SecurityManager) : LoopAction → Prop
  | .calledAuthenticate k => initOk k
  | .dispatched k _ => initOk k ∧ authOk sec k
  | _ => True

/-! ## Helper lemmas -/

/-- `authenticate_key` when the read succeeds: an equality test of the
digest against the configured hash decides the outcome. -/
theorem authenticate_key_read_ok (m : SecurityManager) (k : UsbKey)
    (D : List Nat) (hr : k.device.readR 1024 = .ok D) :
    m.authenticate_key k =
      (if sha256hex D = m.expected_key_hash then .ok ()
       else .error "Key authentication failed",
       [DevOp.read 1024]) := by
  have hv : m.verify_key k =
      (.ok (sha256hex D == m.expected_key_hash), [DevOp.read 1024]) := by
    unfold SecurityManager.verify_key UsbKey.read_data SecurityManager.hash_data
    rw [hr]
  unfold SecurityManager.authenticate_key
  rw [hv]
  cases hb : sha256hex D == m.expected_key_hash
  · rw [if_neg (beq_eq_false_iff_ne.mp hb)]
  · rw [if_pos (beq_iff_eq.mp hb)]

/-- `authenticate_key` when the read fails: the read error propagates. -/
theorem authenticate_key_read_error (m : SecurityManager) (k : UsbKey)
    (e : String) (hr : k.device.readR 1024 = .error e) :
    m.authenticate_key k = (.error e, [DevOp.read 1024]) := by
  unfold SecurityManager.authenticate_key SecurityManager.verify_key
    UsbKey.read_data
  rw [hr]

/-- A successful `initialize` pins down the device's descriptor: connect
succeeded, the descriptor was fetched, its type is USB and its id is the
configured key id. -/
theorem initOk_descriptor (k : UsbKey) (h : initOk k) :
    k.device.connectR = .ok () ∧
    ∃ info, k.device.getInfoR = .ok info ∧
      info.device_type = DeviceType.USB ∧ info.id = k.key_id := by
  unfold initOk UsbKey.initDevice at h
  rcases hc : k.device.connectR with e | u
  · rw [hc] at h; cases h
  · rw [hc] at h
    rcases hi : k.device.getInfoR with e | info
    · rw [hi] at h; cases h
    · rw [hi] at h
      by_cases ht : info.device_type = DeviceType.USB
      · by_cases hid : info.id = k.key_id
        · exact ⟨rfl, info, rfl, ht, hid⟩
        · simp [ht, hid] at h
      · simp [ht] at h

/-! ## Claim theorems -/

/-- C1: for every byte sequence `D` returned by the token's read,
`authenticate_key` succeeds iff the lowercase hex SHA-256 of `D` equals
the configured expected digest string; otherwise it fails with the
authentication error, and no other case (in particular no failed read)
yields success. -/
theorem authenticate_key_iff_digest (m : SecurityManager) (k : UsbKey)
    (D : List Nat) (hr : k.device.readR 1024 = .ok D) :
    ((m.authenticate_key k).1 = .ok () ↔ sha256hex D = m.expected_key_hash) ∧
    (sha256hex D ≠ m.expected_key_hash →
      (m.authenticate_key k).1 = .error "Key authentication failed") ∧
    (∀ (m2 : SecurityManager) (k2 : UsbKey),
      (m2.authenticate_key k2).1 = .ok () →
      ∃ D2, k2.device.readR 1024 = .ok D2 ∧
        sha256hex D2 = m2.expected_key_hash) := by
  refine ⟨?_, ?_, ?_⟩
  · rw [authenticate_key_read_ok m k D hr]
    by_cases h : sha256hex D = m.expected_key_hash <;> simp [h]
  · intro h
    rw [authenticate_key_read_ok m k D hr]
    simp [h]
  · intro m2 k2 hok
    rcases hr2 : k2.device.readR 1024 with e | D2
    · rw [authenticate_key_read_error m2 k2 e hr2] at hok
      cases hok
    · rw [authenticate_key_read_ok m2 k2 D2 hr2] at hok
      by_cases h : sha256hex D2 = m2.expected_key_hash
      · exact ⟨D2, rfl, h⟩
      · simp [h] at hok

/-- C1 witness: the mock token carrying `"test_key_data"` authenticates
against the gate configured with that content's digest. -/
theorem authenticate_key_iff_digest_witness :
    (secGood.authenticate_key goodKey).1 = .ok () :=
  ((authenticate_key_iff_digest secGood goodKey testKeyBytes rfl).1).2
    (by decide)

/-- C2: once connect and descriptor fetch succeed, a descriptor of the
right type with a mismatching id makes `initialize` fail with the
identity-mismatch error; `initialize` succeeds exactly when the type is
USB and the id matches; and `initialize` never reads device data. -/
theorem initialize_identity_check (k : UsbKey) (info : DeviceInfo)
    (hc : k.device.connectR = .ok ())
    (hi : k.device.getInfoR = .ok info) :
    (info.device_type = DeviceType.USB → info.id ≠ k.key_id →
      (UsbKey.initDevice k).1 = .error "Unexpected USB key") ∧
    ((UsbKey.initDevice k).1 = .ok () ↔
      (info.device_type = DeviceType.USB ∧ info.id = k.key_id)) ∧
    (∀ (k2 : UsbKey) (sz : Nat), DevOp.read sz ∉ (UsbKey.initDevice k2).2) := by
  refine ⟨?_, ?_, ?_⟩
  · intro ht hid
    unfold UsbKey.initDevice
    rw [hc, hi]
    simp [ht, hid]
  · unfold UsbKey.initDevice
    rw [hc, hi]
    by_cases ht : info.device_type = DeviceType.USB
    · by_cases hid : info.id = k.key_id <;> simp [ht, hid]
    · simp [ht]
  · intro k2 sz
    unfold UsbKey.initDevice
    rcases k2.device.connectR with e | u
    · simp
    · rcases k2.device.getInfoR with e | info2
      · simp
      · by_cases ht : info2.device_type = DeviceType.USB
        · by_cases hid : info2.id = k2.key_id <;> simp [ht, hid]
        · simp [ht]

/-- C2 witness: the token presenting descriptor id `"wrong_id"` against
configured key id `"test_key_id"` fails with the identity-mismatch
error. -/
theorem initialize_identity_check_witness :
    (UsbKey.initDevice wrongIdKey).1 = .error "Unexpected USB key" :=
  (initialize_identity_check wrongIdKey infoWrongId rfl rfl).1 rfl (by decide)

/-- C9: `verify_key` and `authenticate_key` are read-only on the token:
their device-operation trace is exactly one `read` of size 1024 — no
write, connect or disconnect (the gate itself is immutable: both take
the manager by shared reference and the embedding returns no updated
manager). -/
theorem verify_key_frame (m : SecurityManager) (k : UsbKey) :
    (m.verify_key k).2 = [DevOp.read 1024] ∧
    (m.authenticate_key k).2 = [DevOp.read 1024] := by
  unfold SecurityManager.authenticate_key SecurityManager.verify_key
    UsbKey.read_data
  rcases k.device.readR 1024 with e | D
  · exact ⟨rfl, rfl⟩
  · by_cases h : m.hash_data D == m.expected_key_hash <;> simp [h]

/-- C10: `initialize` checks in the order connect, device type,
identity: a connect failure surfaces before the descriptor is fetched, a
descriptor-fetch failure surfaces before any classification, and a
device that is both of the wrong type and of mismatching id fails with
the wrong-device-type error, not the identity-mismatch one. -/
theorem initialize_check_order (k : UsbKey) :
    (∀ e, k.device.connectR = .error e →
      UsbKey.initDevice k = (.error e, [DevOp.connect])) ∧
    (∀ e, k.device.connectR = .ok () → k.device.getInfoR = .error e →
      UsbKey.initDevice k = (.error e, [DevOp.connect, DevOp.getInfo])) ∧
    (∀ info, k.device.connectR = .ok () → k.device.getInfoR = .ok info →
      info.device_type ≠ DeviceType.USB → info.id ≠ k.key_id →
      (UsbKey.initDevice k).1 = .error "Not a USB device") := by
  refine ⟨?_, ?_, ?_⟩
  · intro e hc
    unfold UsbKey.initDevice
    rw [hc]
  · intro e hc hi
    unfold UsbKey.initDevice
    rw [hc, hi]
  · intro info hc hi ht _hid
    unfold UsbKey.initDevice
    rw [hc, hi]
    simp [ht]

/-- C10 witness: a failing connect surfaces its own error, and the disk
descriptor with a mismatching id fails the type check, not the identity
check. -/
theorem initialize_check_order_witness :
    UsbKey.initDevice badConnectKey = (.error "io error", [DevOp.connect]) ∧
    (UsbKey.initDevice diskKey).1 = .error "Not a USB device" :=
  ⟨(initialize_check_order badConnectKey).1 "io error" rfl,
   (initialize_check_order diskKey).2.2 infoDisk rfl rfl (by decide) (by decide)⟩

/-- The trace of `spawnOutcome` is the one spawn attempt. -/
theorem spawnOutcome_trace (w : World) (prog : String) (args : List String)
    (onOutput : ProcOutput → Except String String) :
    (spawnOutcome w prog args onOutput).2 = [⟨prog, args⟩] := by
  unfold spawnOutcome
  cases w.spawn prog args <;> rfl

/-- `spawnOutcome` when the spawn completes. -/
theorem spawnOutcome_ok (w : World) (prog : String) (args : List String)
    (onOutput : ProcOutput → Except String String) (out : ProcOutput)
    (hsp : w.spawn prog args = .ok out) :
    spawnOutcome w prog args onOutput = (onOutput out, [⟨prog, args⟩]) := by
  unfold spawnOutcome
  rw [hsp]

/-- `run_script`, rewritten through `spawnOutcome` with the named path
and shell helpers. -/
theorem run_script_eq (h : CommandHandler) (iw : Bool) (w : World)
    (name : String) :
    h.run_script iw w name =
      spawnOutcome w (scriptShell iw) (scriptArgs iw h.script_directory name)
        (fun output =>
          if output.success then .ok output.stdout
          else .error ("Script execution failed: " ++ name ++ "\nError: " ++
                       output.stderr)) := by
  cases iw <;> rfl

/-- `check_status`, rewritten through `spawnOutcome`. -/
theorem check_status_eq (h : CommandHandler) (iw : Bool) (w : World) :
    h.check_status iw w =
      spawnOutcome w (if iw then "tasklist" else "ps")
        (if iw then [] else ["aux"])
        (fun output =>
          if output.success then .ok output.stdout
          else .error ("Status check failed: " ++ output.stderr)) := by
  cases iw <;> rfl

/-- `run_script` always spawns exactly one process: the platform shell
with the platform argument list around the resolved script path. -/
theorem run_script_trace (h : CommandHandler) (iw : Bool) (w : World)
    (name : String) :
    (h.run_script iw w name).2 =
      [⟨scriptShell iw, scriptArgs iw h.script_directory name⟩] := by
  rw [run_script_eq]
  exact spawnOutcome_trace _ _ _ _

/-- `check_status` always spawns exactly one process: the platform's
process-listing command. -/
theorem check_status_trace (h : CommandHandler) (iw : Bool) (w : World) :
    (h.check_status iw w).2 =
      [⟨if iw then "tasklist" else "ps", if iw then [] else ["aux"]⟩] := by
  rw [check_status_eq]
  exact spawnOutcome_trace _ _ _ _

/-- `run_script` when the spawn completes: exit status decides between
captured stdout and the script-execution error carrying stderr. -/
theorem run_script_spawn_ok (h : CommandHandler) (iw : Bool) (w : World)
    (name : String) (out : ProcOutput)
    (hsp : w.spawn (scriptShell iw) (scriptArgs iw h.script_directory name) =
      .ok out) :
    h.run_script iw w name =
      (if out.success then .ok out.stdout
       else .error ("Script execution failed: " ++ name ++ "\nError: " ++
                    out.stderr),
       [⟨scriptShell iw, scriptArgs iw h.script_directory name⟩]) := by
  rw [run_script_eq, spawnOutcome_ok _ _ _ _ out hsp]

/-- C5: `handle_command` is total: each of the six recognized strings
attempts exactly one dispatch (one spawned process), and every other
string fails with the unknown-command error while spawning nothing. -/
theorem handle_command_total (h : CommandHandler) (iw : Bool) (w : World)
    (command : String) :
    (command ∈ recognizedCommands →
      ∃ call, (h.handle_command iw w command).2 = [call]) ∧
    (command ∉ recognizedCommands →
      h.handle_command iw w command =
        (.error ("Unknown command: " ++ command), [])) := by
  constructor
  · intro hmem
    simp only [recognizedCommands, List.mem_cons, List.mem_singleton,
      List.not_mem_nil, or_false] at hmem
    rcases hmem with rfl | rfl | rfl | rfl | rfl | rfl
    · exact ⟨_, run_script_trace h iw w "an"⟩
    · exact ⟨_, run_script_trace h iw w "bn"⟩
    · exact ⟨_, run_script_trace h iw w "sl"⟩
    · exact ⟨_, run_script_trace h iw w "lu"⟩
    · exact ⟨_, run_script_trace h iw w "uu"⟩
    · exact ⟨_, check_status_trace h iw w⟩
  · intro hmem
    simp only [recognizedCommands, List.mem_cons, List.mem_singleton,
      List.not_mem_nil, or_false, not_or] at hmem
    obtain ⟨h1, h2, h3, h4, h5, h6⟩ := hmem
    unfold CommandHandler.handle_command
    rw [if_neg h1, if_neg h2, if_neg h3, if_neg h4, if_neg h5, if_neg h6]

/-- C5 witness: the unrecognized command of scenario 5 fails without a
spawn. -/
theorem handle_command_total_witness :
    ("DELETE_ALL" : String) ∉ recognizedCommands ∧
    handlerNix.handle_command false worldOk "DELETE_ALL" =
      (.error ("Unknown command: " ++ "DELETE_ALL"), []) :=
  ⟨by decide,
   (handle_command_total handlerNix false worldOk "DELETE_ALL").2 (by decide)⟩

/-- C6: for every script command whose spawned shell completes, exit
status zero returns the captured stdout, and a nonzero exit fails with
the script-execution error whose message contains the captured
stderr. -/
theorem script_exit_status (h : CommandHandler) (iw : Bool) (w : World)
    (command code : String) (hmem : (command, code) ∈ scriptTable)
    (out : ProcOutput)
    (hsp : w.spawn (scriptShell iw) (scriptArgs iw h.script_directory code) =
      .ok out) :
    (out.success = true →
      (h.handle_command iw w command).1 = .ok out.stdout) ∧
    (out.success = false →
      ∃ p q, (h.handle_command iw w command).1 =
        .error (p ++ out.stderr ++ q)) := by
  have hrun : h.handle_command iw w command = h.run_script iw w code := by
    simp only [scriptTable, List.mem_cons, List.mem_singleton,
      List.not_mem_nil, or_false, Prod.mk.injEq] at hmem
    rcases hmem with ⟨rfl, rfl⟩ | ⟨rfl, rfl⟩ | ⟨rfl, rfl⟩ | ⟨rfl, rfl⟩ |
      ⟨rfl, rfl⟩ <;> rfl
  rw [hrun, run_script_spawn_ok h iw w code out hsp]
  constructor
  · intro hs; rw [hs]; rfl
  · intro hs
    rw [hs]
    refine ⟨"Script execution failed: " ++ code ++ "\nError: ", "", ?_⟩
    rw [String.append_empty]
    rfl

/-- C6 witness: scenario 4 — `LOCK_SCREEN` whose script exits nonzero
with stderr `"perm denied"` fails with a message containing it. -/
theorem script_exit_status_witness :
    ∃ p q, (handlerNix.handle_command false worldFail "LOCK_SCREEN").1 =
      .error (p ++ "perm denied" ++ q) :=
  (script_exit_status handlerNix false worldFail "LOCK_SCREEN" "sl"
    (by decide) ⟨false, "", "perm denied"⟩ rfl).2 rfl

/-- C7: every recognized script command spawns the platform shell with
the platform argument form (`-c path` via `bash`, `/C path` via `cmd`)
on the path `<scriptDirectory>/<code><ext>` with the platform extension,
and `main`'s script directory resolves the full path
`<RESPONSE_DIR>/<platform-subdir>/<code><ext>`. -/
theorem script_path_resolution (h : CommandHandler) (iw : Bool) (w : World)
    (command code : String) (hmem : (command, code) ∈ scriptTable) :
    (h.handle_command iw w command).2 =
      [⟨scriptShell iw, scriptArgs iw h.script_directory code⟩] ∧
    scriptShell false = "bash" ∧ scriptShell true = "cmd" ∧
    scriptArgs false h.script_directory code =
      ["-c", h.script_directory ++ "/" ++ code ++ ".sh"] ∧
    scriptArgs true h.script_directory code =
      ["/C", h.script_directory ++ "\\" ++ code ++ ".bat"] ∧
    scriptPath false (guardianScriptDir false) code =
      RESPONSE_DIR ++ "/" ++ OS_SPECIFIC_DIR false ++ "/" ++ code ++ ".sh" ∧
    scriptPath true (guardianScriptDir true) code =
      RESPONSE_DIR ++ "\\" ++ OS_SPECIFIC_DIR true ++ "\\" ++ code ++ ".bat" := by
  have hrun : h.handle_command iw w command = h.run_script iw w code := by
    simp only [scriptTable, List.mem_cons, List.mem_singleton,
      List.not_mem_nil, or_false, Prod.mk.injEq] at hmem
    rcases hmem with ⟨rfl, rfl⟩ | ⟨rfl, rfl⟩ | ⟨rfl, rfl⟩ | ⟨rfl, rfl⟩ |
      ⟨rfl, rfl⟩ <;> rfl
  exact ⟨hrun ▸ run_script_trace h iw w code, rfl, rfl, rfl, rfl, rfl, rfl⟩

/-- C7 witness: on a Unix-like platform `LOCK_SCREEN` through `main`'s
dispatcher invokes `bash -c` on `./response/nix/sl.sh`. -/
theorem script_path_resolution_witness :
    (handlerNix.handle_command false worldOk "LOCK_SCREEN").2 =
      [⟨"bash", ["-c", "./response/nix/sl.sh"]⟩] := by
  have h := (script_path_resolution handlerNix false worldOk "LOCK_SCREEN" "sl"
    (by decide)).1
  rw [h]
  decide

/-- One loop transition preserves the gate invariant and emits only
sound actions. -/
theorem guardianStep_inv (sec : SecurityManager) (s : LoopState)
    (ev : LoopEvent) (hs : stateInv sec s) :
    stateInv sec (guardianStep sec s ev).1 ∧
    ∀ a ∈ (guardianStep sec s ev).2, actionOk sec a := by
  cases s with
  | waitingForDevice =>
    rcases ev with r | r
    · rcases r with k | _ | e <;> exact ⟨trivial, by simp [guardianStep, actionOk]⟩
    · rcases r with cmd | e <;> exact ⟨trivial, by simp [guardianStep, actionOk]⟩
  | initializing k =>
    have hstep : guardianStep sec (.initializing k) ev =
        match (UsbKey.initDevice k).1 with
        | .error _ => (.waitingForDevice, [.calledInitialize k])
        | .ok _ => (.authenticating k, [.calledInitialize k]) := by
      rcases ev with r | r
      · rcases r with k2 | _ | e <;> rfl
      · rcases r with cmd | e <;> rfl
    rw [hstep]
    rcases hinit : (UsbKey.initDevice k).1 with e | u
    · exact ⟨trivial, by simp [actionOk]⟩
    · refine ⟨?_, by simp [actionOk]⟩
      show initOk k
      rw [initOk, hinit]
  | authenticating k =>
    have hstep : guardianStep sec (.authenticating k) ev =
        match (sec.authenticate_key k).1 with
        | .error _ => (.waitingForDevice, [.calledAuthenticate k])
        | .ok _ => (.commandLoop k, [.calledAuthenticate k]) := by
      rcases ev with r | r
      · rcases r with k2 | _ | e <;> rfl
      · rcases r with cmd | e <;> rfl
    rw [hstep]
    have hik : initOk k := hs
    rcases hauth : (sec.authenticate_key k).1 with e | u
    · refine ⟨trivial, ?_⟩
      intro a ha
      rcases List.mem_singleton.mp ha with rfl
      exact hik
    · refine ⟨⟨hik, ?_⟩, ?_⟩
      · show authOk sec k
        rw [authOk, hauth]
      · intro a ha
        rcases List.mem_singleton.mp ha with rfl
        exact hik
  | commandLoop k =>
    have hck : initOk k ∧ authOk sec k := hs
    rcases ev with r | r
    · rcases r with k2 | _ | e <;> exact ⟨hck, by simp [guardianStep, actionOk]⟩
    · rcases r with e | cmd
      · exact ⟨trivial, by simp [guardianStep, actionOk]⟩
      · refine ⟨hck, ?_⟩
        intro a ha
        rcases List.mem_singleton.mp ha with rfl
        exact hck
  | disconnecting k =>
    rcases ev with r | r
    · rcases r with k2 | _ | e <;> exact ⟨trivial, by simp [guardianStep, actionOk]⟩
    · rcases r with cmd | e <;> exact ⟨trivial, by simp [guardianStep, actionOk]⟩
  | terminated e =>
    rcases ev with r | r
    · rcases r with k2 | _ | e2 <;> exact ⟨trivial, by simp [guardianStep]⟩
    · rcases r with cmd | e2 <;> exact ⟨trivial, by simp [guardianStep]⟩

/-- Every action emitted along a run from an invariant state is sound:
authentication only after a passed `initialize`, dispatch only after
both gates passed. -/
theorem guardianRun_sound (sec : SecurityManager) (evs : List LoopEvent) :
    ∀ (s : LoopState), stateInv sec s →
      ∀ a ∈ (guardianRun sec s evs).2, actionOk sec a := by
  induction evs with
  | nil =>
    intro s _ a ha
    simp [guardianRun] at ha
  | cons ev rest ih =>
    intro s hs a ha
    have hstep := guardianStep_inv sec s ev hs
    rw [show guardianRun sec s (ev :: rest) =
        ((guardianRun sec (guardianStep sec s ev).1 rest).1,
         (guardianStep sec s ev).2 ++
           (guardianRun sec (guardianStep sec s ev).1 rest).2) from rfl] at ha
    rcases List.mem_append.mp ha with hmem | hmem
    · exact hstep.2 a hmem
    · exact ih _ hstep.1 a hmem

/-- C3 (amended): a discovered device that does not down-cast to the
token wrapper is discarded with no initialize and no authenticate call,
and the loop returns to waiting; and `authenticate_key` is only ever
called on a token whose fetched descriptor has type USB and the
configured id — so a token-wrapped device whose descriptor is not a
token is never authenticated (though `initialize` is called on it, see
the counterexample). -/
theorem non_token_discovery (sec : SecurityManager) :
    (guardianStep sec .waitingForDevice (.discovery .foundOther) =
      (.waitingForDevice, [])) ∧
    (∀ (evs : List LoopEvent) (k : UsbKey),
      LoopAction.calledAuthenticate k ∈
        (guardianRun sec .waitingForDevice evs).2 →
      ∃ info, k.device.getInfoR = .ok info ∧
        info.device_type = DeviceType.USB ∧ info.id = k.key_id) := by
  constructor
  · rfl
  · intro evs k hmem
    have hsound := guardianRun_sound sec evs .waitingForDevice trivial _ hmem
    exact (initOk_descriptor k hsound).2

/-- C3 witness: on the good token the loop does reach an authenticate
call, and the theorem yields its USB descriptor with the matching id. -/
theorem non_token_discovery_witness :
    LoopAction.calledAuthenticate goodKey ∈
      (guardianRun secGood .waitingForDevice goodEvents).2 ∧
    ∃ info, goodKey.device.getInfoR = .ok info ∧
      info.device_type = DeviceType.USB ∧ info.id = goodKey.key_id := by
  have htr : (guardianRun secGood .waitingForDevice goodEvents).2 =
      [LoopAction.calledInitialize goodKey,
       LoopAction.calledAuthenticate goodKey,
       LoopAction.dispatched goodKey "CHECK_STATUS"] := rfl
  have hmem : LoopAction.calledAuthenticate goodKey ∈
      (guardianRun secGood .waitingForDevice goodEvents).2 := by
    rw [htr]
    exact List.Mem.tail _ (List.Mem.head _)
  exact ⟨hmem, (non_token_discovery secGood).2 goodEvents goodKey hmem⟩

/-- C3 counterexample: a `UsbKey`-wrapped device whose descriptor type
is `Disk` (not a token) is nevertheless handed to `initialize` by the
loop — classification is by down-cast, not by descriptor. -/
theorem non_token_descriptor_initialized :
    diskKey.device.getInfoR = .ok infoDisk ∧
    infoDisk.device_type ≠ DeviceType.USB ∧
    LoopAction.calledInitialize diskKey ∈
      (guardianRun secGood .waitingForDevice
        [.discovery (.found diskKey), .discovery .foundOther]).2 := by
  refine ⟨rfl, by decide, ?_⟩
  have htr : (guardianRun secGood .waitingForDevice
      [.discovery (.found diskKey), .discovery .foundOther]).2 =
      [LoopAction.calledInitialize diskKey] := rfl
  rw [htr]
  exact List.Mem.head _

/-- C4 (code divergence): when `wait_for_device` fails, the embedded
loop moves from `WaitingForDevice` to the absorbing `terminated` state —
`main` propagates the error with the question-mark operator and the
process exits — rather than logging and retrying the waiting state. -/
theorem wait_for_device_error_terminates :
    guardianStep (SecurityManager.mk EXPECTED_KEY_HASH) .waitingForDevice
        (.discovery (.failed "device wait timeout")) =
      (.terminated "device wait timeout", []) ∧
    (LoopState.terminated "device wait timeout" ≠ LoopState.waitingForDevice) := by
  refine ⟨rfl, ?_⟩
  intro h
  cases h

/-- C8: an in-session command-wait failure sends the session to
`Disconnecting`; from there the loop unconditionally calls disconnect
and returns to `WaitingForDevice` (never terminating); and any dispatch
in any run from the waiting state is performed by a token that passed
both `initialize` and `authenticate_key`. -/
theorem command_timeout_reauth (sec : SecurityManager) :
    (∀ (k : UsbKey) (e : String),
      guardianStep sec (.commandLoop k) (.command (.error e)) =
        (.disconnecting k, [])) ∧
    (∀ (k : UsbKey) (ev : LoopEvent),
      guardianStep sec (.disconnecting k) ev =
        (.waitingForDevice, [.calledDisconnect k])) ∧
    (∀ (evs : List LoopEvent) (k : UsbKey) (cmd : String),
      LoopAction.dispatched k cmd ∈
        (guardianRun sec .waitingForDevice evs).2 →
      (UsbKey.initDevice k).1 = .ok () ∧ (sec.authenticate_key k).1 = .ok ()) := by
  refine ⟨fun k e => rfl, fun k ev => ?_, fun evs k cmd hmem => ?_⟩
  · rcases ev with r | r
    · rcases r with k2 | _ | e <;> rfl
    · rcases r with cmd | e <;> rfl
  · exact guardianRun_sound sec evs .waitingForDevice trivial _ hmem

/-- C8 witness: the dispatch reached in the good session run was indeed
preceded by a passed `initialize` and a passed `authenticate_key`. -/
theorem command_timeout_reauth_witness :
    LoopAction.dispatched goodKey "CHECK_STATUS" ∈
      (guardianRun secGood .waitingForDevice goodEvents).2 ∧
    ((UsbKey.initDevice goodKey).1 = .ok () ∧
     (secGood.authenticate_key goodKey).1 = .ok ()) := by
  have htr : (guardianRun secGood .waitingForDevice goodEvents).2 =
      [LoopAction.calledInitialize goodKey,
       LoopAction.calledAuthenticate goodKey,
       LoopAction.dispatched goodKey "CHECK_STATUS"] := rfl
  have hmem : LoopAction.dispatched goodKey "CHECK_STATUS" ∈
      (guardianRun secGood .waitingForDevice goodEvents).2 := by
    rw [htr]
    exact List.Mem.tail _ (List.Mem.tail _ (List.Mem.head _))
  exact ⟨hmem,
    (command_timeout_reauth secGood).2.2 goodEvents goodKey "CHECK_STATUS" hmem⟩

end Guardian
